import Mathlib

/-!
Shallow embedding of the cost-calculation core of the `core-task-engine`
repository (`src/costing/calculators/base-calculator.ts`,
`atr-calculator.ts`, `q-plus-plus-calculator.ts`, and the multiplier
helpers of the test calculator in `test/base-calculator.spec.ts`).

Modelling conventions:
* JavaScript numbers are idealised as rationals, except that the `NaN`
  value reachable in the source (an arithmetic operand that is
  `undefined`, e.g. a location absent from an effort-hours record) is
  tracked explicitly by the `JsNum` type, whose arithmetic propagates
  `nan` exactly as IEEE arithmetic propagates NaN through `+`/`*` and
  `toFixed`.
* `Number(x.toFixed(2))` is modelled by rounding half toward positive
  infinity at two decimals, per the ECMAScript `toFixed` tie rule.
* Thrown `Error`s become `Except CalcError`; the human-readable message
  strings of the source are carried structurally: each `CalcError` and
  `ValidationError` constructor keeps the data interpolated into the
  corresponding message (component name, location, complexity, actual
  allocation sum, ...).  Pure-presentation string fields (`description`,
  `effortHoursDescription`) and the wall-clock `estimationDate` are
  elided; no claim depends on them.
* TypeScript `Record<string, T>` lookups become `String → Option T`;
  the `x || d` default idiom on strings becomes `jsOrStr`, which treats
  the empty string as falsy exactly as JavaScript does.
-/

namespace CoreTaskEngine

/-- A JavaScript number: either a rational value or NaN. -/
inductive JsNum where
  | nan : JsNum
  | num : ℚ → JsNum
deriving DecidableEq, Repr

/-- JS `+` on numbers: NaN is absorbing. -/
def JsNum.add : JsNum → JsNum → JsNum
  | .num a, .num b => .num (a + b)
  | _, _ => .nan

/-- JS `*` on numbers: NaN is absorbing. -/
def JsNum.mul : JsNum → JsNum → JsNum
  | .num a, .num b => .num (a * b)
  | _, _ => .nan

/-- `Number(q.toFixed(2))` on a (finite) value: round to two decimals,
ties toward positive infinity (ECMAScript picks the larger candidate). -/
def round2 (q : ℚ) : ℚ := (⌊q * 100 + 1 / 2⌋ : ℚ) / 100

/-- `Number(x.toFixed(2))` on a JS number; `NaN.toFixed` gives `"NaN"`
and `Number("NaN")` is NaN again. -/
def JsNum.round2 : JsNum → JsNum
  | .nan => .nan
  | .num q => .num (CoreTaskEngine.round2 q)

/-- An `undefined`-or-number operand entering arithmetic: `undefined`
coerces to NaN. -/
def jsNumOfOpt : Option ℚ → JsNum
  | some v => .num v
  | none => .nan

/-- JS `o || d` for an optional string: `undefined` and `""` are falsy. -/
def jsOrStr (o : Option String) (d : String) : String :=
  match o with
  | none => d
  | some s => if s = "" then d else s

/-! ## Data model (`interfaces/costing.interface.ts`) -/

structure ResourceAllocation where
  location : String
  allocation : ℚ
deriving DecidableEq, Repr

structure AssetComponent where
  name : String
  resourceModel : List ResourceAllocation
deriving DecidableEq, Repr

structure CommonFields where
  deploymentType : String
  region : Option String := none
  supportLevel : Option String := none
deriving DecidableEq, Repr

/-- The `specificFields: Record<string, any>` bag, restricted to the keys
the two shipped calculators read. -/
structure SpecificFields where
  licenseCount : Option ℚ := none
  databaseSize : Option String := none
deriving DecidableEq, Repr

structure AssetCostRequest where
  assetName : String
  complexity : Option String := none
  commonFields : CommonFields
  assetComponents : List AssetComponent
  specificFields : SpecificFields := {}
deriving DecidableEq, Repr

/-- Validation errors pushed by `validateComponents`, with the data of
each message carried structurally. -/
inductive ValidationError where
  | noComponents
  | duplicateNames (names : List String)
  | missingName
  | noResourceAllocation (name : String)
  | allocationSum (name : String) (total : ℚ)
deriving DecidableEq, Repr

/-- Errors thrown during cost calculation, with the data of each message
carried structurally. -/
inductive CalcError where
  | invalidAssetName (requested expected : String)
  | invalidComponents (errors : List ValidationError)
  | blendRateNotFound (location complexity : String)
  | unknownLocation (location : String)
  | effortHoursNotFoundComponent (component : String)
  | effortHoursNotFoundComplexity (component complexity : String)
  | complexityMandatory
  | invalidComplexity (complexity : String)
  | licenseCountRequired
deriving DecidableEq, Repr

structure EffortBreakdown where
  deliveryLocation : String
  effortHours : JsNum
  effortAmount : JsNum
deriving DecidableEq, Repr

structure CostBreakdown where
  costComponentName : String
  amount : JsNum
  isError : Bool
  errorMessage : Option CalcError := none
  effortHours : Option JsNum := none
  effortBreakdown : Option (List EffortBreakdown) := none
deriving DecidableEq, Repr

structure BuildResult where
  total : JsNum
  breakdown : List CostBreakdown
deriving DecidableEq, Repr

structure RunResult where
  total : JsNum
  breakdown : List CostBreakdown
  period : String
deriving DecidableEq, Repr

structure CostSection where
  total : JsNum
  currency : String
  breakdown : List CostBreakdown
deriving DecidableEq, Repr

structure RunCostSection where
  total : JsNum
  currency : String
  period : String
  breakdown : List CostBreakdown
deriving DecidableEq, Repr

structure AssetCostResponse where
  assetName : String
  buildCost : CostSection
  runCost : RunCostSection
deriving DecidableEq, Repr

/-! ## Base calculator (`calculators/base-calculator.ts`) -/

/-- Sum of the `allocation` fields of a resource model
(`resourceModel.reduce((sum, resource) => sum + resource.allocation, 0)`). -/
def allocationTotal (rm : List ResourceAllocation) : ℚ :=
  rm.foldl (fun sum resource => sum + resource.allocation) 0

/-- `names.filter((item, index) => names.indexOf(item) !== index)`. -/
def duplicatesOf (names : List String) : List String :=
  (names.enum.filter (fun p => names.indexOf p.2 ≠ p.1)).map (fun p => p.2)

/-- The errors the per-component loop of `validateComponents` pushes for
one component. -/
def componentErrors (component : AssetComponent) : List ValidationError :=
  (if component.name = "" then [ValidationError.missingName] else []) ++
  (if component.resourceModel = [] then
    [ValidationError.noResourceAllocation (jsOrStr (some component.name) "unnamed")]
  else
    let totalAllocation := allocationTotal component.resourceModel
    if 1 / 100 < |totalAllocation - 100| then
      [ValidationError.allocationSum component.name totalAllocation]
    else [])

/-- Accumulation of `componentErrors` over the component loop. -/
def perComponentErrors : List AssetComponent → List ValidationError
  | [] => []
  | component :: rest => componentErrors component ++ perComponentErrors rest

/-- `BaseCalculator.validateComponents`. -/
def validateComponents (components : List AssetComponent) : List ValidationError :=
  if components = [] then [ValidationError.noComponents]
  else
    let names := components.map (fun c => c.name)
    let dupErrors :=
      if names.dedup.length ≠ components.length then
        [ValidationError.duplicateNames (duplicatesOf names)]
      else []
    dupErrors ++ perComponentErrors components

/-- `BaseCalculator.getWorkingHoursPerLocation`. -/
def getWorkingHoursPerLocation (location : String) : Except CalcError ℚ :=
  if location = "Australia" then .ok 8
  else if location = "India" then .ok 9
  else .error (CalcError.unknownLocation location)

/-- `blendRates[location]?.[complexity]`. -/
def rateLookup (blendRates : String → Option (String → Option ℚ))
    (location complexity : String) : Option ℚ :=
  (blendRates location).bind (fun m => m complexity)

/-- The `for (const { allocation, location } of component.resourceModel)`
loop of `calculateEffortBasedComponentCost`, with the accumulated
`totalAmount`, `totalEffortHours` and the pushed `effortBreakdown`
entries (pushed list kept reversed, restored at the end). -/
def effortLoop (complexity : String)
    (blendRates : String → Option (String → Option ℚ))
    (effortHours : String → Option ℚ) :
    List ResourceAllocation → JsNum → JsNum → List EffortBreakdown →
    Except CalcError (JsNum × JsNum × List EffortBreakdown)
  | [], totalAmount, totalEffortHours, acc =>
    .ok (totalAmount, totalEffortHours, acc.reverse)
  | r :: rest, totalAmount, totalEffortHours, acc =>
    match rateLookup blendRates r.location complexity with
    | none => .error (CalcError.blendRateNotFound r.location complexity)
    | some blendRate =>
      -- `if (!blendRate)`: a rate of 0 is falsy, exactly like a missing one
      if blendRate = 0 then .error (CalcError.blendRateNotFound r.location complexity)
      else
        match getWorkingHoursPerLocation r.location with
        | .error e => .error e
        | .ok workingHours =>
          let effortsHrForLocation :=
            ((JsNum.num (r.allocation / 100)).mul (JsNum.num workingHours)).mul
              (jsNumOfOpt (effortHours r.location))
          let amount := (effortsHrForLocation.mul (JsNum.num blendRate)).round2
          effortLoop complexity blendRates effortHours rest
            (totalAmount.add amount) (totalEffortHours.add effortsHrForLocation)
            ({ deliveryLocation := r.location
               effortHours := effortsHrForLocation
               effortAmount := amount } :: acc)

/-- `BaseCalculator.calculateEffortBasedComponentCost`. -/
def calculateEffortBasedComponentCost (component : AssetComponent)
    (complexity : String) (blendRates : String → Option (String → Option ℚ))
    (effortHours : String → Option ℚ) : Except CalcError CostBreakdown :=
  match effortLoop complexity blendRates effortHours component.resourceModel
      (.num 0) (.num 0) [] with
  | .error e => .error e
  | .ok (totalAmount, totalEffortHours, effortBreakdown) =>
    .ok { costComponentName := component.name
          amount := totalAmount
          isError := false
          errorMessage := none
          effortHours := some totalEffortHours
          effortBreakdown := some effortBreakdown }

/-- `BaseCalculator.calculateTotalFromBreakdown`. -/
def calculateTotalFromBreakdown (breakdown : List CostBreakdown) : JsNum :=
  breakdown.foldl (fun sum item => sum.add item.amount) (.num 0)

/-! ## ATR calculator (`calculators/atr-calculator.ts`) -/

def atrIndiaRates (complexity : String) : Option ℚ :=
  if complexity = "xSmall" then some 14
  else if complexity = "Small" then some 14
  else if complexity = "Medium" then some 15
  else if complexity = "Large" then some 16
  else if complexity = "xLarge" then some 17
  else none

def atrAustraliaRates (complexity : String) : Option ℚ :=
  if complexity = "xSmall" then some 48
  else if complexity = "Small" then some 49
  else if complexity = "Medium" then some 52
  else if complexity = "Large" then some 53
  else if complexity = "xLarge" then some 55
  else none

/-- `AtrCalculator.getBlendRates`. -/
def atrBlendRates (location : String) : Option (String → Option ℚ) :=
  if location = "India" then some atrIndiaRates
  else if location = "Australia" then some atrAustraliaRates
  else none

def atrIgnitionHours (complexity : String) : Option (String → Option ℚ) :=
  if complexity = "xSmall" then
    some fun loc => if loc = "Australia" then some 19.39 else if loc = "India" then some 21.14 else none
  else if complexity = "Small" then
    some fun loc => if loc = "Australia" then some 21.34 else if loc = "India" then some 23.1 else none
  else if complexity = "Medium" then
    some fun loc => if loc = "Australia" then some 31.25 else if loc = "India" then some 32.8 else none
  else if complexity = "Large" then
    some fun loc => if loc = "Australia" then some 41.2 else if loc = "India" then some 42.6 else none
  else if complexity = "xLarge" then
    some fun loc => if loc = "Australia" then some 50.91 else if loc = "India" then some 52.47 else none
  else none

def atrAutomationConfigurationHours (complexity : String) : Option (String → Option ℚ) :=
  if complexity = "xSmall" then
    some fun loc => if loc = "Australia" then some 21.35 else if loc = "India" then some 10 else none
  else if complexity = "Small" then
    some fun loc => if loc = "Australia" then some 20.92 else if loc = "India" then some 10 else none
  else if complexity = "Medium" then
    some fun loc => if loc = "Australia" then some 17.76 else if loc = "India" then some 10 else none
  else if complexity = "Large" then
    some fun loc => if loc = "Australia" then some 15.52 else if loc = "India" then some 10 else none
  else if complexity = "xLarge" then
    some fun loc => if loc = "Australia" then some 13.11 else if loc = "India" then some 10 else none
  else none

/-- The `effortHoursByComponent` table of `AtrCalculator.getEffortHours`. -/
def atrEffortHoursByComponent (component : String) :
    Option (String → Option (String → Option ℚ)) :=
  if component = "ignition" then some atrIgnitionHours
  else if component = "automation configuration" then some atrAutomationConfigurationHours
  else none

/-- `AtrCalculator.getEffortHours`. -/
def atrGetEffortHours (component complexity : String) :
    Except CalcError (String → Option ℚ) :=
  match atrEffortHoursByComponent component with
  | none => .error (CalcError.effortHoursNotFoundComponent component)
  | some componentHours =>
    match componentHours complexity with
    | none => .error (CalcError.effortHoursNotFoundComplexity component complexity)
    | some complexityHours => .ok complexityHours

/-- `AtrCalculator.calculateEffortBasedCosts`: try the effort formula,
catch any error into an `isError` breakdown entry. -/
def atrCalculateEffortBasedCosts (component : AssetComponent)
    (complexity : String) : CostBreakdown :=
  match (do
      let effortHours ← atrGetEffortHours component.name complexity
      calculateEffortBasedComponentCost component complexity atrBlendRates effortHours) with
  | .ok costBreakdown => costBreakdown
  | .error e =>
    { costComponentName := component.name
      amount := .num 0
      isError := true
      errorMessage := some e }

/-- The `validComplexities` list of `AtrCalculator.calculateBuildCost`. -/
def validComplexities : List String :=
  ["xSmall", "Small", "Medium", "Large", "xLarge"]

/-- `AtrCalculator.calculateBuildCost`. -/
def atrCalculateBuildCost (request : AssetCostRequest) :
    Except CalcError BuildResult :=
  match request.complexity with
  | none => .error CalcError.complexityMandatory
  | some complexity =>
    -- `if (!complexity)`: the empty string is also falsy
    if complexity = "" then .error CalcError.complexityMandatory
    else if ¬ complexity ∈ validComplexities then
      .error (CalcError.invalidComplexity complexity)
    else
      let breakdown := request.assetComponents.map
        (fun component => atrCalculateEffortBasedCosts component complexity)
      .ok { total := calculateTotalFromBreakdown breakdown, breakdown := breakdown }

/-- `AtrCalculator.calculateRunCost`. -/
def atrCalculateRunCost (request : AssetCostRequest) :
    Except CalcError RunResult :=
  match request.specificFields.licenseCount with
  | none => .error CalcError.licenseCountRequired
  | some licenseCount =>
    -- `if (!licenseCount || licenseCount < 1)`
    if licenseCount = 0 ∨ licenseCount < 1 then .error CalcError.licenseCountRequired
    else
      let baseMonthlyLicense : ℚ := 500
      let licenseCost := baseMonthlyLicense * licenseCount
      let supportLevel := jsOrStr request.commonFields.supportLevel "standard"
      let supportCost : ℚ :=
        if supportLevel = "basic" then 100 * licenseCount
        else if supportLevel = "standard" then 250 * licenseCount
        else if supportLevel = "premium" then 500 * licenseCount
        else 250 * licenseCount
      let breakdown : List CostBreakdown :=
        [{ costComponentName := "License Fees", amount := .num licenseCost, isError := false },
         { costComponentName := "Support", amount := .num supportCost, isError := false }] ++
        (if request.commonFields.deploymentType = "cloud" then
          [{ costComponentName := "Cloud Infrastructure"
             amount := .num (200 * licenseCount)
             isError := false }]
         else [])
      .ok { total := calculateTotalFromBreakdown breakdown
            breakdown := breakdown
            period := "monthly" }

/-! ## Q++ calculator (`calculators/q-plus-plus-calculator.ts`) -/

def qppAustraliaRates (c : String) : Option ℚ :=
  if c = "xSmall" then some 63 else if c = "Small" then some 63
  else if c = "Medium" then some 65 else if c = "Large" then some 68
  else if c = "xLarge" then some 72 else none

def qppIndiaRates (c : String) : Option ℚ :=
  if c = "xSmall" then some 14 else if c = "Small" then some 14
  else if c = "Medium" then some 15 else if c = "Large" then some 16
  else if c = "xLarge" then some 17 else none

def qppUsRates (c : String) : Option ℚ :=
  if c = "xSmall" then some 75 else if c = "Small" then some 75
  else if c = "Medium" then some 80 else if c = "Large" then some 85
  else if c = "xLarge" then some 90 else none

def qppEuRates (c : String) : Option ℚ :=
  if c = "xSmall" then some 70 else if c = "Small" then some 70
  else if c = "Medium" then some 75 else if c = "Large" then some 80
  else if c = "xLarge" then some 85 else none

def qppApacRates (c : String) : Option ℚ :=
  if c = "xSmall" then some 60 else if c = "Small" then some 60
  else if c = "Medium" then some 65 else if c = "Large" then some 70
  else if c = "xLarge" then some 75 else none

def qppUkRates (c : String) : Option ℚ :=
  if c = "xSmall" then some 80 else if c = "Small" then some 80
  else if c = "Medium" then some 85 else if c = "Large" then some 90
  else if c = "xLarge" then some 95 else none

def qppLatamRates (c : String) : Option ℚ :=
  if c = "xSmall" then some 50 else if c = "Small" then some 50
  else if c = "Medium" then some 55 else if c = "Large" then some 60
  else if c = "xLarge" then some 65 else none

/-- `QPlusPlusCalculator.getBlendRates`. -/
def qppBlendRates (location : String) : Option (String → Option ℚ) :=
  if location = "Australia" then some qppAustraliaRates
  else if location = "India" then some qppIndiaRates
  else if location = "US" then some qppUsRates
  else if location = "EU" then some qppEuRates
  else if location = "APAC" then some qppApacRates
  else if location = "UK" then some qppUkRates
  else if location = "LATAM" then some qppLatamRates
  else none

def qppFrontendHours (c : String) : Option (String → Option ℚ) :=
  if c = "xSmall" then
    some fun l => if l = "India" then some 25 else if l = "US" then some 20 else if l = "EU" then some 22 else if l = "APAC" then some 24 else none
  else if c = "Small" then
    some fun l => if l = "India" then some 35 else if l = "US" then some 30 else if l = "EU" then some 32 else if l = "APAC" then some 34 else none
  else if c = "Medium" then
    some fun l => if l = "India" then some 45 else if l = "US" then some 40 else if l = "EU" then some 42 else if l = "APAC" then some 44 else none
  else if c = "Large" then
    some fun l => if l = "India" then some 55 else if l = "US" then some 50 else if l = "EU" then some 52 else if l = "APAC" then some 54 else none
  else if c = "xLarge" then
    some fun l => if l = "India" then some 65 else if l = "US" then some 60 else if l = "EU" then some 62 else if l = "APAC" then some 64 else none
  else none

def qppBackendHours (c : String) : Option (String → Option ℚ) :=
  if c = "xSmall" then
    some fun l => if l = "India" then some 30 else if l = "US" then some 25 else if l = "EU" then some 27 else if l = "APAC" then some 29 else none
  else if c = "Small" then
    some fun l => if l = "India" then some 40 else if l = "US" then some 35 else if l = "EU" then some 37 else if l = "APAC" then some 39 else none
  else if c = "Medium" then
    some fun l => if l = "India" then some 50 else if l = "US" then some 45 else if l = "EU" then some 47 else if l = "APAC" then some 49 else none
  else if c = "Large" then
    some fun l => if l = "India" then some 60 else if l = "US" then some 55 else if l = "EU" then some 57 else if l = "APAC" then some 59 else none
  else if c = "xLarge" then
    some fun l => if l = "India" then some 70 else if l = "US" then some 65 else if l = "EU" then some 67 else if l = "APAC" then some 69 else none
  else none

def qppDatabaseHours (c : String) : Option (String → Option ℚ) :=
  if c = "xSmall" then
    some fun l => if l = "India" then some 15 else if l = "US" then some 10 else if l = "EU" then some 12 else if l = "APAC" then some 14 else none
  else if c = "Small" then
    some fun l => if l = "India" then some 25 else if l = "US" then some 20 else if l = "EU" then some 22 else if l = "APAC" then some 24 else none
  else if c = "Medium" then
    some fun l => if l = "India" then some 35 else if l = "US" then some 30 else if l = "EU" then some 32 else if l = "APAC" then some 34 else none
  else if c = "Large" then
    some fun l => if l = "India" then some 45 else if l = "US" then some 40 else if l = "EU" then some 42 else if l = "APAC" then some 44 else none
  else if c = "xLarge" then
    some fun l => if l = "India" then some 55 else if l = "US" then some 50 else if l = "EU" then some 52 else if l = "APAC" then some 54 else none
  else none

/-- The `effortHoursDb` table of `QPlusPlusCalculator.getEffortHours`. -/
def qppEffortHoursDb (component : String) :
    Option (String → Option (String → Option ℚ)) :=
  if component = "Frontend" then some qppFrontendHours
  else if component = "Backend" then some qppBackendHours
  else if component = "Database" then some qppDatabaseHours
  else none

/-- `QPlusPlusCalculator.getEffortHours`. -/
def qppGetEffortHours (componentName complexity : String) :
    Except CalcError (String → Option ℚ) :=
  match qppEffortHoursDb componentName with
  | none => .error (CalcError.effortHoursNotFoundComponent componentName)
  | some component =>
    match component complexity with
    | none => .error (CalcError.effortHoursNotFoundComplexity componentName complexity)
    | some hours => .ok hours

/-- `QPlusPlusCalculator.calculateEffortBasedCosts`: per component, try
the effort formula and catch any error into an `isError` entry. -/
def qppCalculateEffortBasedCosts (components : List AssetComponent)
    (complexity : String) : List CostBreakdown :=
  components.map fun component =>
    match (do
        let effortHours ← qppGetEffortHours component.name complexity
        calculateEffortBasedComponentCost component complexity qppBlendRates effortHours) with
    | .ok costBreakdown => costBreakdown
    | .error e =>
      { costComponentName := component.name
        amount := .num 0
        isError := true
        errorMessage := some e }

/-- `{small: 1, medium: 2, large: 3}[databaseSize] || 1`. -/
def dbSizeMultiplier (databaseSize : String) : ℚ :=
  if databaseSize = "small" then 1
  else if databaseSize = "medium" then 2
  else if databaseSize = "large" then 3
  else 1

/-- `if (specificFields?.databaseSize)`: present and non-empty. -/
def jsTruthyStr (o : Option String) : Bool :=
  match o with
  | some s => s ≠ ""
  | none => false

/-- `QPlusPlusCalculator.calculateBuildCost`. -/
def qppCalculateBuildCost (request : AssetCostRequest) :
    Except CalcError BuildResult :=
  -- `const complexity = (request.complexity || 'Medium') as ComplexityLevel`
  let complexity := jsOrStr request.complexity "Medium"
  let costBreakdowns := qppCalculateEffortBasedCosts request.assetComponents complexity
  let costBreakdowns :=
    if jsTruthyStr request.specificFields.databaseSize then
      let databaseSize := (request.specificFields.databaseSize).getD ""
      costBreakdowns ++
        [{ costComponentName := "Database Setup"
           amount := .num (1000 * dbSizeMultiplier databaseSize)
           isError := false }]
    else costBreakdowns
  .ok { total := calculateTotalFromBreakdown costBreakdowns, breakdown := costBreakdowns }

/-- `QPlusPlusCalculator.calculateRunCost`. -/
def qppCalculateRunCost (request : AssetCostRequest) :
    Except CalcError RunResult :=
  let baseRunCost : ℚ := 1000
  let dbRunCost : ℚ :=
    if jsTruthyStr request.specificFields.databaseSize then
      200 * dbSizeMultiplier ((request.specificFields.databaseSize).getD "")
    else 0
  -- `const deploymentMultiplier = 1.0` (placeholder in the source)
  let deploymentMultiplier : ℚ := 1.0
  let adjustedBaseRunCost := baseRunCost * deploymentMultiplier
  let breakdown : List CostBreakdown :=
    [{ costComponentName := "Monthly Service", amount := .num adjustedBaseRunCost, isError := false }] ++
    (if 0 < dbRunCost then
      [{ costComponentName := "Database Hosting", amount := .num dbRunCost, isError := false }]
     else [])
  .ok { total := calculateTotalFromBreakdown breakdown
        breakdown := breakdown
        period := "monthly" }

/-! ## SCP calculator (`calculators/scp-calculator.ts`) -/

/-- `ScpCalculator.calculateBuildCost` (dummy implementation). -/
def scpCalculateBuildCost (_request : AssetCostRequest) :
    Except CalcError BuildResult :=
  let dummyBreakdown : List CostBreakdown :=
    [{ costComponentName := "SCP Setup", amount := .num 5000, isError := false }]
  .ok { total := calculateTotalFromBreakdown dummyBreakdown
        breakdown := dummyBreakdown }

/-- `ScpCalculator.calculateRunCost` (dummy implementation). -/
def scpCalculateRunCost (_request : AssetCostRequest) :
    Except CalcError RunResult :=
  let dummyBreakdown : List CostBreakdown :=
    [{ costComponentName := "SCP Monthly Maintenance", amount := .num 500, isError := false }]
  .ok { total := calculateTotalFromBreakdown dummyBreakdown
        breakdown := dummyBreakdown
        period := "monthly" }

/-! ## Orchestrator (`BaseCalculator.calculateCosts`) -/

/-- A calculator: the data the abstract `BaseCalculator` dispatches on. -/
structure Calculator where
  assetName : String
  calculateBuildCost : AssetCostRequest → Except CalcError BuildResult
  calculateRunCost : AssetCostRequest → Except CalcError RunResult

def atrCalculator : Calculator :=
  { assetName := "ATR"
    calculateBuildCost := atrCalculateBuildCost
    calculateRunCost := atrCalculateRunCost }

def qppCalculator : Calculator :=
  { assetName := "QPlusPlus"
    calculateBuildCost := qppCalculateBuildCost
    calculateRunCost := qppCalculateRunCost }

def scpCalculator : Calculator :=
  { assetName := "SCP"
    calculateBuildCost := scpCalculateBuildCost
    calculateRunCost := scpCalculateRunCost }

/-- `BaseCalculator.calculateCosts` (the wall-clock `estimationDate` of
the response is elided). -/
def calculateCosts (calculator : Calculator) (request : AssetCostRequest) :
    Except CalcError AssetCostResponse :=
  if request.assetName ≠ calculator.assetName then
    .error (CalcError.invalidAssetName request.assetName calculator.assetName)
  else
    let validationErrors := validateComponents request.assetComponents
    if validationErrors ≠ [] then
      .error (CalcError.invalidComponents validationErrors)
    else
      match calculator.calculateBuildCost request with
      | .error e => .error e
      | .ok buildCostResult =>
        match calculator.calculateRunCost request with
        | .error e => .error e
        | .ok runCostResult =>
          .ok { assetName := calculator.assetName
                buildCost := { total := buildCostResult.total
                               currency := "USD"
                               breakdown := buildCostResult.breakdown }
                runCost := { total := runCostResult.total
                             currency := "USD"
                             period := runCostResult.period
                             breakdown := runCostResult.breakdown } }

/-! ## Multiplier helpers of the test calculator
(`test/base-calculator.spec.ts`, `TestCalculator`) -/

/-- `TestCalculator.getDeploymentTypeMultiplier`. -/
def getDeploymentTypeMultiplier (request : AssetCostRequest) : ℚ :=
  if request.commonFields.deploymentType = "onPremise" then 1.2
  else if request.commonFields.deploymentType = "cloud" then 1.0
  else if request.commonFields.deploymentType = "hybrid" then 1.3
  else if request.commonFields.deploymentType = "managed" then 1.5
  else 1.0

/-- `TestCalculator.getSupportLevelMultiplier` (note the
`supportLevel || 'standard'` default before the switch). -/
def getSupportLevelMultiplier (request : AssetCostRequest) : ℚ :=
  let supportLevel := jsOrStr request.commonFields.supportLevel "standard"
  if supportLevel = "basic" then 1.0
  else if supportLevel = "standard" then 1.2
  else if supportLevel = "premium" then 1.5
  else 1.0

/-! ## Basic lemmas -/

theorem JsNum.num_add_num (a b : ℚ) : (JsNum.num a).add (.num b) = .num (a + b) := rfl

theorem JsNum.num_mul_num (a b : ℚ) : (JsNum.num a).mul (.num b) = .num (a * b) := rfl

theorem JsNum.round2_num (q : ℚ) :
    (JsNum.num q).round2 = .num (CoreTaskEngine.round2 q) := rfl

instance {ε α : Type} [DecidableEq ε] [DecidableEq α] : DecidableEq (Except ε α) :=
  fun x y =>
    match x, y with
    | .error a, .error b => decidable_of_iff (a = b) (by simp)
    | .ok a, .ok b => decidable_of_iff (a = b) (by simp)
    | .error _, .ok _ => isFalse (fun hc => Except.noConfusion hc)
    | .ok _, .error _ => isFalse (fun hc => Except.noConfusion hc)

/-! ## Claim C4: request-level failure of `calculateCosts` -/

/-- **C4.** `calculateCosts` fails as a whole when the request's asset
name differs from the calculator's (checked first, so this error is
reported even when component validation would also fail), and fails with
the complete list of validation errors (the source joins all of them
into one message) whenever validation reports any error; in both cases
no build or run cost is computed (the result is `Except.error`). -/
theorem c4_request_validation (calculator : Calculator) (request : AssetCostRequest) :
    (request.assetName ≠ calculator.assetName →
      calculateCosts calculator request =
        .error (CalcError.invalidAssetName request.assetName calculator.assetName)) ∧
    (request.assetName = calculator.assetName →
      validateComponents request.assetComponents ≠ [] →
      calculateCosts calculator request =
        .error (CalcError.invalidComponents (validateComponents request.assetComponents))) := by
  constructor
  · intro h
    unfold calculateCosts
    simp [h]
  · intro h1 h2
    unfold calculateCosts
    simp [h1, h2]

/-- Witness for C4 at concrete inputs: a wrong asset name (with
components that would also fail validation, showing the name check comes
first) and an empty component list. -/
theorem c4_request_validation_witness :
    calculateCosts atrCalculator
        { assetName := "WRONG"
          commonFields := { deploymentType := "cloud" }
          assetComponents := [] } =
      .error (CalcError.invalidAssetName "WRONG" "ATR") ∧
    calculateCosts atrCalculator
        { assetName := "ATR"
          commonFields := { deploymentType := "cloud" }
          assetComponents := [] } =
      .error (CalcError.invalidComponents [ValidationError.noComponents]) := by
  constructor
  · exact (c4_request_validation atrCalculator _).1 (by decide)
  · exact ((c4_request_validation atrCalculator _).2 (by decide) (by decide)).trans (by decide)

/-! ## Claim C5: allocation-sum validation -/

theorem componentErrors_of_wellFormed (c : AssetComponent) (h1 : c.name ≠ "")
    (h2 : c.resourceModel ≠ []) :
    componentErrors c =
      if 1 / 100 < |allocationTotal c.resourceModel - 100| then
        [ValidationError.allocationSum c.name (allocationTotal c.resourceModel)]
      else [] := by
  simp [componentErrors, h1, h2]

theorem perComponentErrors_eq_nil (components : List AssetComponent) :
    perComponentErrors components = [] ↔
      ∀ c ∈ components, componentErrors c = [] := by
  induction components with
  | nil => simp [perComponentErrors]
  | cons c rest ih => simp [perComponentErrors, ih]

theorem mem_perComponentErrors (components : List AssetComponent)
    (c : AssetComponent) (e : ValidationError) (hc : c ∈ components)
    (he : e ∈ componentErrors c) : e ∈ perComponentErrors components := by
  induction components with
  | nil => cases hc
  | cons d rest ih =>
    rcases List.mem_cons.mp hc with rfl | hmem
    · exact List.mem_append.mpr (Or.inl he)
    · exact List.mem_append.mpr (Or.inr (ih hmem))

theorem validateComponents_of_wellFormed (components : List AssetComponent)
    (h0 : components ≠ [])
    (hnd : (components.map (fun c => c.name)).Nodup) :
    validateComponents components = perComponentErrors components := by
  unfold validateComponents
  rw [if_neg h0]
  have hself : (components.map (fun c => c.name)).dedup = components.map (fun c => c.name) :=
    List.dedup_eq_self.mpr hnd
  simp [hself]

/-- **C5.** For a non-empty component list with unique non-empty names
and non-empty resource models, `validateComponents` returns no errors
iff every component's allocations sum to within 0.01 of 100, and every
component whose sum deviates by more than 0.01 contributes an error
carrying that component's name and the actual sum. -/
theorem c5_allocation_sum_validation (components : List AssetComponent)
    (h0 : components ≠ [])
    (hnd : (components.map (fun c => c.name)).Nodup)
    (hname : ∀ c ∈ components, c.name ≠ "")
    (hrm : ∀ c ∈ components, c.resourceModel ≠ []) :
    (validateComponents components = [] ↔
      ∀ c ∈ components, |allocationTotal c.resourceModel - 100| ≤ 1 / 100) ∧
    (∀ c ∈ components, 1 / 100 < |allocationTotal c.resourceModel - 100| →
      ValidationError.allocationSum c.name (allocationTotal c.resourceModel) ∈
        validateComponents components) := by
  rw [validateComponents_of_wellFormed components h0 hnd]
  constructor
  · rw [perComponentErrors_eq_nil]
    constructor
    · intro h c hc
      have := h c hc
      rw [componentErrors_of_wellFormed c (hname c hc) (hrm c hc)] at this
      by_contra hgt
      rw [if_pos (lt_of_not_le hgt)] at this
      exact List.noConfusion this
    · intro h c hc
      rw [componentErrors_of_wellFormed c (hname c hc) (hrm c hc),
        if_neg (not_lt_of_le (h c hc))]
  · intro c hc hgt
    refine mem_perComponentErrors components c _ hc ?_
    rw [componentErrors_of_wellFormed c (hname c hc) (hrm c hc), if_pos hgt]
    exact List.mem_singleton.mpr rfl

/-- Witness for C5: a two-component request whose allocations sum to
100 and 99.995 respectively passes, and one with a 100.02 sum yields the
error naming the component and the sum. -/
theorem c5_allocation_sum_validation_witness :
    validateComponents
        [{ name := "A", resourceModel := [{ location := "India", allocation := 60 },
                                          { location := "Australia", allocation := 40 }] },
         { name := "B", resourceModel := [{ location := "US", allocation := 99.995 }] }] = [] ∧
    ValidationError.allocationSum "C"
        (allocationTotal [{ location := "EU", allocation := 100.02 }]) ∈
      validateComponents [{ name := "C", resourceModel := [{ location := "EU", allocation := 100.02 }] }] := by
  constructor
  · refine (c5_allocation_sum_validation
      [{ name := "A", resourceModel := [{ location := "India", allocation := 60 },
                                        { location := "Australia", allocation := 40 }] },
       { name := "B", resourceModel := [{ location := "US", allocation := 99.995 }] }]
      (by decide) (by decide) (by decide) (by decide)).1.mpr ?_
    intro c hc
    fin_cases hc <;> norm_num [allocationTotal, abs_le]
  · refine (c5_allocation_sum_validation
      [{ name := "C", resourceModel := [{ location := "EU", allocation := 100.02 }] }]
      (by decide) (by decide) (by decide) (by decide)).2
      { name := "C", resourceModel := [{ location := "EU", allocation := 100.02 }] }
      (List.mem_singleton.mpr rfl) ?_
    norm_num [allocationTotal]
    rw [lt_abs]
    left
    norm_num

/-! ## Claim C2: per-location effort formula and rounding policy

The `spec...` definitions below follow the specification's wording
(formula per `{location, allocation}` entry); claim C2 compares the
source-derived `calculateEffortBasedComponentCost` against them. -/

/-- A resource-model entry for which all lookups of the effort formula
succeed: a present non-zero blend rate, a location known to the
working-hours table, and a present effort-hours entry. -/
def entrySucceeds (complexity : String)
    (blendRates : String → Option (String → Option ℚ))
    (effortHours : String → Option ℚ) (r : ResourceAllocation) : Prop :=
  (∃ rate, rateLookup blendRates r.location complexity = some rate ∧ rate ≠ 0) ∧
  (r.location = "Australia" ∨ r.location = "India") ∧
  (effortHours r.location).isSome

/-- Spec wording: the working-hours-per-day constant of a location. -/
def specWorkingHours (location : String) : ℚ :=
  if location = "Australia" then 8 else if location = "India" then 9 else 0

/-- Spec wording: `locationEffortHours = (allocation/100) *
workingHoursPerDay * effortHours`. -/
def specLocationEffortHours (effortHours : String → Option ℚ)
    (r : ResourceAllocation) : ℚ :=
  r.allocation / 100 * specWorkingHours r.location * (effortHours r.location).getD 0

/-- Spec wording: the per-location amount, `locationEffortHours *
blendRate` rounded to 2 decimal places. -/
def specLocationAmount (blendRates : String → Option (String → Option ℚ))
    (complexity : String) (effortHours : String → Option ℚ)
    (r : ResourceAllocation) : ℚ :=
  round2 (specLocationEffortHours effortHours r *
    (rateLookup blendRates r.location complexity).getD 0)

theorem effortLoop_ok (complexity : String)
    (blendRates : String → Option (String → Option ℚ))
    (effortHours : String → Option ℚ) :
    ∀ (l : List ResourceAllocation) (ta th : ℚ) (acc : List EffortBreakdown),
    (∀ r ∈ l, entrySucceeds complexity blendRates effortHours r) →
    effortLoop complexity blendRates effortHours l (.num ta) (.num th) acc =
      .ok (.num (ta + (l.map (specLocationAmount blendRates complexity effortHours)).sum),
           .num (th + (l.map (specLocationEffortHours effortHours)).sum),
           acc.reverse ++ l.map (fun r =>
             { deliveryLocation := r.location
               effortHours := .num (specLocationEffortHours effortHours r)
               effortAmount := .num (specLocationAmount blendRates complexity effortHours r) })) := by
  intro l
  induction l with
  | nil =>
    intro ta th acc _
    simp [effortLoop]
  | cons r rest ih =>
    intro ta th acc hall
    obtain ⟨⟨rate, hrate, hrne⟩, hloc, hsome⟩ := hall r (List.mem_cons_self r rest)
    obtain ⟨v, hv⟩ := Option.isSome_iff_exists.mp hsome
    have hwh : getWorkingHoursPerLocation r.location = .ok (specWorkingHours r.location) := by
      rcases hloc with h | h <;> simp [getWorkingHoursPerLocation, specWorkingHours, h]
    unfold effortLoop
    simp only [hrate, hwh, if_neg hrne, jsNumOfOpt, hv, JsNum.num_mul_num,
      JsNum.round2_num, JsNum.num_add_num]
    rw [ih _ _ _ (fun r' hr' => hall r' (List.mem_cons_of_mem r hr'))]
    have hhrs : r.allocation / 100 * specWorkingHours r.location * v =
        specLocationEffortHours effortHours r := by
      simp [specLocationEffortHours, hv]
    have hamt : round2 (specLocationEffortHours effortHours r * rate) =
        specLocationAmount blendRates complexity effortHours r := by
      simp [specLocationAmount, hrate]
    rw [hhrs, hamt]
    simp only [List.map_cons, List.sum_cons, List.reverse_cons, List.append_assoc,
      List.singleton_append, Except.ok.injEq, Prod.mk.injEq, JsNum.num.injEq]
    exact ⟨by ring, by ring, trivial⟩

/-- **C2.** When every lookup succeeds, the effort formula computes per
resource-model entry `locationEffortHours = (allocation/100) *
workingHoursPerDay(location) * effortHours[location]` and a per-location
amount `round2(locationEffortHours * blendRate)`; the breakdown's
`amount` is the sum of the already-rounded per-location amounts (rounded
per location *before* summation) while its `effortHours` is the sum of
the unrounded location effort hours. -/
theorem c2_effort_formula_and_rounding (component : AssetComponent)
    (complexity : String) (blendRates : String → Option (String → Option ℚ))
    (effortHours : String → Option ℚ)
    (h : ∀ r ∈ component.resourceModel, entrySucceeds complexity blendRates effortHours r) :
    calculateEffortBasedComponentCost component complexity blendRates effortHours =
      .ok { costComponentName := component.name
            amount := .num ((component.resourceModel.map
              (specLocationAmount blendRates complexity effortHours)).sum)
            isError := false
            errorMessage := none
            effortHours := some (.num ((component.resourceModel.map
              (specLocationEffortHours effortHours)).sum))
            effortBreakdown := some (component.resourceModel.map (fun r =>
              { deliveryLocation := r.location
                effortHours := .num (specLocationEffortHours effortHours r)
                effortAmount := .num (specLocationAmount blendRates complexity effortHours r) })) } := by
  unfold calculateEffortBasedComponentCost
  rw [effortLoop_ok complexity blendRates effortHours component.resourceModel 0 0 [] h]
  simp

/-- Witness for C2 at a concrete two-location component with unit tables:
0.5·8·1 = 4 hours in Australia and 0.5·9·1 = 4.5 hours in India, amounts
4 and 4.5, summed to 8.5. -/
theorem c2_effort_formula_and_rounding_witness :
    calculateEffortBasedComponentCost
        { name := "w", resourceModel := [{ location := "Australia", allocation := 50 },
                                         { location := "India", allocation := 50 }] }
        "Medium" (fun _ => some (fun _ => some 1)) (fun _ => some 1) =
      .ok { costComponentName := "w"
            amount := .num 8.5
            isError := false
            errorMessage := none
            effortHours := some (.num 8.5)
            effortBreakdown := some
              [{ deliveryLocation := "Australia", effortHours := .num 4, effortAmount := .num 4 },
               { deliveryLocation := "India", effortHours := .num 4.5, effortAmount := .num 4.5 }] } := by
  have h := c2_effort_formula_and_rounding
    { name := "w", resourceModel := [{ location := "Australia", allocation := 50 },
                                     { location := "India", allocation := 50 }] }
    "Medium" (fun _ => some (fun _ => some 1)) (fun _ => some 1) ?side
  · refine h.trans ?_
    norm_num [specLocationAmount, specLocationEffortHours, specWorkingHours,
      rateLookup, round2, (by decide : ("India" : String) ≠ "Australia")]
  · intro r hr
    simp only [List.mem_cons, List.mem_singleton] at hr
    rcases hr with rfl | rfl | hfalse
    · exact ⟨⟨1, rfl, one_ne_zero⟩, Or.inl rfl, rfl⟩
    · exact ⟨⟨1, rfl, one_ne_zero⟩, Or.inr rfl, rfl⟩
    · cases hfalse

/-! ## Claim C9: a zero blend rate is indistinguishable from a missing one -/

/-- Two blend-rate tables agree at a complexity up to replacing `some 0`
entries by missing ones. -/
def agreeUpToZero (br₁ br₂ : String → Option (String → Option ℚ))
    (complexity : String) : Prop :=
  ∀ loc, rateLookup br₁ loc complexity = rateLookup br₂ loc complexity ∨
    (rateLookup br₁ loc complexity = some 0 ∧ rateLookup br₂ loc complexity = none)

/-- A resource-model entry that the loop passes through without
throwing before reaching the blend-rate check of a later entry. -/
def entryPasses (complexity : String)
    (blendRates : String → Option (String → Option ℚ))
    (r : ResourceAllocation) : Prop :=
  (∃ rate, rateLookup blendRates r.location complexity = some rate ∧ rate ≠ 0) ∧
  (r.location = "Australia" ∨ r.location = "India")

theorem effortLoop_congr_upToZero (complexity : String)
    (br₁ br₂ : String → Option (String → Option ℚ))
    (effortHours : String → Option ℚ) (h : agreeUpToZero br₁ br₂ complexity) :
    ∀ (l : List ResourceAllocation) (ta th : JsNum) (acc : List EffortBreakdown),
    effortLoop complexity br₁ effortHours l ta th acc =
      effortLoop complexity br₂ effortHours l ta th acc := by
  intro l
  induction l with
  | nil => intro ta th acc; rfl
  | cons r rest ih =>
    intro ta th acc
    unfold effortLoop
    rcases h r.location with heq | ⟨h1, h2⟩
    · rw [heq]
      cases hv : rateLookup br₂ r.location complexity with
      | none => rfl
      | some rate =>
        by_cases hz : rate = 0
        · simp [hz]
        · simp only [if_neg hz]
          cases getWorkingHoursPerLocation r.location with
          | error e => rfl
          | ok workingHours => exact ih _ _ _
    · rw [h1, h2]
      simp

theorem effortLoop_zeroRate_error (complexity : String)
    (blendRates : String → Option (String → Option ℚ))
    (effortHours : String → Option ℚ) (r : ResourceAllocation)
    (post : List ResourceAllocation)
    (hz : rateLookup blendRates r.location complexity = some 0) :
    ∀ (pre : List ResourceAllocation) (ta th : JsNum) (acc : List EffortBreakdown),
    (∀ p ∈ pre, entryPasses complexity blendRates p) →
    effortLoop complexity blendRates effortHours (pre ++ r :: post) ta th acc =
      .error (CalcError.blendRateNotFound r.location complexity) := by
  intro pre
  induction pre with
  | nil =>
    intro ta th acc _
    unfold effortLoop
    simp [hz]
  | cons p rest ih =>
    intro ta th acc hall
    obtain ⟨⟨rate, hrate, hrne⟩, hloc⟩ := hall p (List.mem_cons_self p rest)
    have hwh : ∃ wh, getWorkingHoursPerLocation p.location = .ok wh := by
      rcases hloc with h | h
      · exact ⟨8, by simp [getWorkingHoursPerLocation, h]⟩
      · exact ⟨9, by simp [getWorkingHoursPerLocation, h]⟩
    obtain ⟨wh, hwh⟩ := hwh
    rw [List.cons_append]
    unfold effortLoop
    simp only [hrate, if_neg hrne, hwh]
    exact ih _ _ _ (fun p' hp' => hall p' (List.mem_cons_of_mem p hp'))

/-- **C9.** A blend-rate entry that is present but `0` is treated by the
effort formula exactly like a missing entry: replacing `some 0` lookups
by missing ones never changes the result of
`calculateEffortBasedComponentCost`, and when the loop reaches an entry
whose blend rate is `0` it throws the very same "Blend rate not found"
error (naming that location and complexity) that a missing entry
produces. -/
theorem c9_zero_blend_rate_like_missing :
    (∀ (component : AssetComponent) (complexity : String)
      (br₁ br₂ : String → Option (String → Option ℚ))
      (effortHours : String → Option ℚ),
      agreeUpToZero br₁ br₂ complexity →
      calculateEffortBasedComponentCost component complexity br₁ effortHours =
        calculateEffortBasedComponentCost component complexity br₂ effortHours) ∧
    (∀ (component : AssetComponent) (complexity : String)
      (blendRates : String → Option (String → Option ℚ))
      (effortHours : String → Option ℚ)
      (pre : List ResourceAllocation) (r : ResourceAllocation)
      (post : List ResourceAllocation),
      component.resourceModel = pre ++ r :: post →
      (∀ p ∈ pre, entryPasses complexity blendRates p) →
      rateLookup blendRates r.location complexity = some 0 →
      calculateEffortBasedComponentCost component complexity blendRates effortHours =
        .error (CalcError.blendRateNotFound r.location complexity)) := by
  constructor
  · intro component complexity br₁ br₂ effortHours h
    unfold calculateEffortBasedComponentCost
    rw [effortLoop_congr_upToZero complexity br₁ br₂ effortHours h]
  · intro component complexity blendRates effortHours pre r post hsplit hpre hz
    unfold calculateEffortBasedComponentCost
    rw [hsplit, effortLoop_zeroRate_error complexity blendRates effortHours r post hz pre _ _ _ hpre]

/-- Witness for C9: with an all-zero table versus an empty table the
results coincide, and a first-entry zero rate yields the
"Blend rate not found" error for that location and complexity. -/
theorem c9_zero_blend_rate_like_missing_witness :
    (calculateEffortBasedComponentCost
        { name := "c", resourceModel := [{ location := "Australia", allocation := 100 }] }
        "Medium" (fun _ => some (fun _ => some 0)) (fun _ => some 1) =
      calculateEffortBasedComponentCost
        { name := "c", resourceModel := [{ location := "Australia", allocation := 100 }] }
        "Medium" (fun _ => none) (fun _ => some 1)) ∧
    calculateEffortBasedComponentCost
        { name := "c", resourceModel := [{ location := "Australia", allocation := 100 }] }
        "Medium" (fun _ => some (fun _ => some 0)) (fun _ => some 1) =
      .error (CalcError.blendRateNotFound "Australia" "Medium") := by
  constructor
  · exact c9_zero_blend_rate_like_missing.1
      { name := "c", resourceModel := [{ location := "Australia", allocation := 100 }] }
      "Medium" (fun _ => some (fun _ => some 0)) (fun _ => none) (fun _ => some 1)
      (fun _ => Or.inr ⟨rfl, rfl⟩)
  · exact c9_zero_blend_rate_like_missing.2
      { name := "c", resourceModel := [{ location := "Australia", allocation := 100 }] }
      "Medium" (fun _ => some (fun _ => some 0)) (fun _ => some 1)
      [] { location := "Australia", allocation := 100 } [] rfl (by simp) rfl

/-! ## Claim C10: no range check on individual allocation values -/

/-- **C10.** `validateComponents` checks only the *sum* of a component's
allocations: any component with a non-empty name and resource model
whose allocations sum to within 0.01 of 100 passes, no matter how far
the individual values lie outside `[0,100]`; in particular the component
with allocations `-50` and `150` passes and those values flow unchecked
into the effort formula (yielding a negative line amount of `-4.5` for
the `-50` allocation with unit tables). -/
theorem c10_no_individual_allocation_range_check :
    (∀ c : AssetComponent, c.name ≠ "" → c.resourceModel ≠ [] →
      |allocationTotal c.resourceModel - 100| ≤ 1 / 100 →
      validateComponents [c] = []) ∧
    (validateComponents
        [{ name := "comp", resourceModel := [{ location := "India", allocation := -50 },
                                             { location := "Australia", allocation := 150 }] }] = [] ∧
      calculateEffortBasedComponentCost
          { name := "comp", resourceModel := [{ location := "India", allocation := -50 },
                                              { location := "Australia", allocation := 150 }] }
          "Medium" (fun _ => some (fun _ => some 1)) (fun _ => some 1) =
        .ok { costComponentName := "comp"
              amount := .num 7.5
              isError := false
              errorMessage := none
              effortHours := some (.num 7.5)
              effortBreakdown := some
                [{ deliveryLocation := "India", effortHours := .num (-4.5), effortAmount := .num (-4.5) },
                 { deliveryLocation := "Australia", effortHours := .num 12, effortAmount := .num 12 }] }) := by
  have hsingle : ∀ c : AssetComponent, c.name ≠ "" → c.resourceModel ≠ [] →
      |allocationTotal c.resourceModel - 100| ≤ 1 / 100 →
      validateComponents [c] = [] := by
    intro c h1 h2 h3
    rw [validateComponents_of_wellFormed [c] (by simp) (by simp)]
    simp only [perComponentErrors, List.append_nil]
    rw [componentErrors_of_wellFormed c h1 h2, if_neg (not_lt_of_le h3)]
  refine ⟨hsingle, ?_, ?_⟩
  · refine hsingle _ (by decide) (by decide) ?_
    norm_num [allocationTotal]
  · norm_num [calculateEffortBasedComponentCost, effortLoop, rateLookup,
      getWorkingHoursPerLocation, jsNumOfOpt, JsNum.mul, JsNum.add, JsNum.round2,
      round2, (by decide : ("India" : String) ≠ "Australia")]

/-- Witness for C10: the general part applied to the out-of-range
component. -/
theorem c10_no_individual_allocation_range_check_witness :
    validateComponents
        [{ name := "other", resourceModel := [{ location := "US", allocation := 250 },
                                              { location := "EU", allocation := -150 }] }] = [] := by
  refine c10_no_individual_allocation_range_check.1
    { name := "other", resourceModel := [{ location := "US", allocation := 250 },
                                         { location := "EU", allocation := -150 }] }
    (by decide) (by decide) ?_
  norm_num [allocationTotal]

/-! ## Claim C1: totals are always the sum of the breakdown -/

theorem atrCalculateBuildCost_total (request : AssetCostRequest) (b : BuildResult)
    (h : atrCalculateBuildCost request = .ok b) :
    b.total = calculateTotalFromBreakdown b.breakdown := by
  unfold atrCalculateBuildCost at h
  cases hc : request.complexity with
  | none => simp [hc] at h
  | some c =>
    simp only [hc] at h
    split at h
    · exact Except.noConfusion h
    split at h
    · exact Except.noConfusion h
    · injection h with h2
      subst h2
      rfl

theorem atrCalculateRunCost_total (request : AssetCostRequest) (r : RunResult)
    (h : atrCalculateRunCost request = .ok r) :
    r.total = calculateTotalFromBreakdown r.breakdown := by
  unfold atrCalculateRunCost at h
  cases hc : request.specificFields.licenseCount with
  | none => simp [hc] at h
  | some lc =>
    simp only [hc] at h
    split at h
    · exact Except.noConfusion h
    · injection h with h2
      subst h2
      rfl

theorem qppCalculateBuildCost_total (request : AssetCostRequest) (b : BuildResult)
    (h : qppCalculateBuildCost request = .ok b) :
    b.total = calculateTotalFromBreakdown b.breakdown := by
  unfold qppCalculateBuildCost at h
  injection h with h2
  subst h2
  rfl

theorem qppCalculateRunCost_total (request : AssetCostRequest) (r : RunResult)
    (h : qppCalculateRunCost request = .ok r) :
    r.total = calculateTotalFromBreakdown r.breakdown := by
  unfold qppCalculateRunCost at h
  injection h with h2
  subst h2
  rfl

theorem calculateCosts_totals (calculator : Calculator)
    (hb : ∀ req b, calculator.calculateBuildCost req = .ok b →
      b.total = calculateTotalFromBreakdown b.breakdown)
    (hr : ∀ req r, calculator.calculateRunCost req = .ok r →
      r.total = calculateTotalFromBreakdown r.breakdown)
    (request : AssetCostRequest) (resp : AssetCostResponse)
    (h : calculateCosts calculator request = .ok resp) :
    resp.buildCost.total = calculateTotalFromBreakdown resp.buildCost.breakdown ∧
    resp.runCost.total = calculateTotalFromBreakdown resp.runCost.breakdown := by
  unfold calculateCosts at h
  by_cases hn : request.assetName ≠ calculator.assetName
  · simp only [if_pos hn] at h
    exact Except.noConfusion h
  simp only [if_neg hn] at h
  by_cases hv : validateComponents request.assetComponents ≠ []
  · simp only [if_pos hv] at h
    exact Except.noConfusion h
  simp only [if_neg hv] at h
  cases hbe : calculator.calculateBuildCost request with
  | error e => simp [hbe] at h
  | ok b =>
    simp only [hbe] at h
    cases hre : calculator.calculateRunCost request with
    | error e => simp [hre] at h
    | ok r =>
      simp only [hre] at h
      injection h with h2
      subst h2
      exact ⟨hb request b hbe, hr request r hre⟩

theorem scpCalculateBuildCost_total (request : AssetCostRequest) (b : BuildResult)
    (h : scpCalculateBuildCost request = .ok b) :
    b.total = calculateTotalFromBreakdown b.breakdown := by
  unfold scpCalculateBuildCost at h
  injection h with h2
  subst h2
  rfl

theorem scpCalculateRunCost_total (request : AssetCostRequest) (r : RunResult)
    (h : scpCalculateRunCost request = .ok r) :
    r.total = calculateTotalFromBreakdown r.breakdown := by
  unfold scpCalculateRunCost at h
  injection h with h2
  subst h2
  rfl

/-- **C1.** For every successful response of `calculateCosts` with any
registered calculator (ATR, QPlusPlus, SCP), `buildCost.total` is the
fold-sum of the `amount` fields of `buildCost.breakdown` and
`runCost.total` the fold-sum of the `amount` fields of
`runCost.breakdown` — zero-amount `isError` entries included, the totals
never being computed apart from the breakdown. -/
theorem c1_total_is_sum_of_breakdown :
    (∀ request resp, calculateCosts atrCalculator request = .ok resp →
      resp.buildCost.total = calculateTotalFromBreakdown resp.buildCost.breakdown ∧
      resp.runCost.total = calculateTotalFromBreakdown resp.runCost.breakdown) ∧
    (∀ request resp, calculateCosts qppCalculator request = .ok resp →
      resp.buildCost.total = calculateTotalFromBreakdown resp.buildCost.breakdown ∧
      resp.runCost.total = calculateTotalFromBreakdown resp.runCost.breakdown) ∧
    (∀ request resp, calculateCosts scpCalculator request = .ok resp →
      resp.buildCost.total = calculateTotalFromBreakdown resp.buildCost.breakdown ∧
      resp.runCost.total = calculateTotalFromBreakdown resp.runCost.breakdown) := by
  refine ⟨?_, ?_, ?_⟩
  · intro request resp h
    exact calculateCosts_totals atrCalculator atrCalculateBuildCost_total
      atrCalculateRunCost_total request resp h
  · intro request resp h
    exact calculateCosts_totals qppCalculator qppCalculateBuildCost_total
      qppCalculateRunCost_total request resp h
  · intro request resp h
    exact calculateCosts_totals scpCalculator scpCalculateBuildCost_total
      scpCalculateRunCost_total request resp h

/-- Witness for C1: a complete Q++ request evaluates successfully and
its totals equal the fold-sums of the breakdowns. -/
theorem c1_total_is_sum_of_breakdown_witness :
    ∃ resp, calculateCosts qppCalculator
        { assetName := "QPlusPlus"
          complexity := some "Medium"
          commonFields := { deploymentType := "cloud" }
          assetComponents :=
            [{ name := "Frontend"
               resourceModel := [{ location := "India", allocation := 100 }] }] } = .ok resp ∧
      resp.buildCost.total = calculateTotalFromBreakdown resp.buildCost.breakdown ∧
      resp.runCost.total = calculateTotalFromBreakdown resp.runCost.breakdown := by
  have h : calculateCosts qppCalculator
      { assetName := "QPlusPlus"
        complexity := some "Medium"
        commonFields := { deploymentType := "cloud" }
        assetComponents :=
          [{ name := "Frontend"
             resourceModel := [{ location := "India", allocation := 100 }] }] } =
      .ok { assetName := "QPlusPlus"
            buildCost :=
              { total := .num 6075
                currency := "USD"
                breakdown :=
                  [{ costComponentName := "Frontend"
                     amount := .num 6075
                     isError := false
                     errorMessage := none
                     effortHours := some (.num 405)
                     effortBreakdown :=
                       some [{ deliveryLocation := "India"
                               effortHours := .num 405
                               effortAmount := .num 6075 }] }] }
            runCost :=
              { total := .num 1000
                currency := "USD"
                period := "monthly"
                breakdown :=
                  [{ costComponentName := "Monthly Service"
                     amount := .num 1000
                     isError := false
                     errorMessage := none
                     effortHours := none
                     effortBreakdown := none }] } } := by
    simp [calculateCosts, qppCalculator, validateComponents, perComponentErrors,
      componentErrors, allocationTotal, duplicatesOf, qppCalculateBuildCost,
      qppCalculateEffortBasedCosts, qppGetEffortHours, qppEffortHoursDb,
      qppFrontendHours, calculateEffortBasedComponentCost, effortLoop, rateLookup,
      qppBlendRates, qppAustraliaRates, qppIndiaRates, getWorkingHoursPerLocation,
      jsNumOfOpt, JsNum.mul, JsNum.add, JsNum.round2, jsOrStr, jsTruthyStr,
      dbSizeMultiplier, qppCalculateRunCost, calculateTotalFromBreakdown,
      bind, Except.bind]
    norm_num [round2]
  exact ⟨_, h, c1_total_is_sum_of_breakdown.2.1 _ _ h⟩

/-! ## Claim C3: missing effort-hours entry under catch-and-continue -/

/-- **C3 (code bug).** For the Q++ request with a valid `Frontend`
component (India) and a `Backend` component whose location `Australia`
is present in the blend-rate and working-hours tables but missing from
`Backend`'s effort-hours record, `calculateCosts` succeeds with a
breakdown whose second entry is *not* an error entry (`isError = false`,
no error message): its amount is NaN (`undefined` effort hours entering
arithmetic), and the build-cost total is NaN rather than the valid
entry's amount — the missing effort-hours entry silently corrupts the
total instead of being caught into an `isError` entry with amount 0. -/
theorem c3_missing_effort_hours_nan_total :
    calculateCosts qppCalculator
        { assetName := "QPlusPlus"
          complexity := some "Medium"
          commonFields := { deploymentType := "onPremise" }
          assetComponents :=
            [{ name := "Frontend"
               resourceModel := [{ location := "India", allocation := 100 }] },
             { name := "Backend"
               resourceModel := [{ location := "Australia", allocation := 100 }] }] } =
      .ok { assetName := "QPlusPlus"
            buildCost :=
              { total := .nan
                currency := "USD"
                breakdown :=
                  [{ costComponentName := "Frontend"
                     amount := .num 6075
                     isError := false
                     errorMessage := none
                     effortHours := some (.num 405)
                     effortBreakdown :=
                       some [{ deliveryLocation := "India"
                               effortHours := .num 405
                               effortAmount := .num 6075 }] },
                   { costComponentName := "Backend"
                     amount := .nan
                     isError := false
                     errorMessage := none
                     effortHours := some .nan
                     effortBreakdown :=
                       some [{ deliveryLocation := "Australia"
                               effortHours := .nan
                               effortAmount := .nan }] }] }
            runCost :=
              { total := .num 1000
                currency := "USD"
                period := "monthly"
                breakdown :=
                  [{ costComponentName := "Monthly Service"
                     amount := .num 1000
                     isError := false
                     errorMessage := none
                     effortHours := none
                     effortBreakdown := none }] } } := by
  simp [calculateCosts, qppCalculator, validateComponents, perComponentErrors,
    componentErrors, allocationTotal, duplicatesOf, qppCalculateBuildCost,
    qppCalculateEffortBasedCosts, qppGetEffortHours, qppEffortHoursDb,
    qppFrontendHours, qppBackendHours, calculateEffortBasedComponentCost,
    effortLoop, rateLookup, qppBlendRates, qppAustraliaRates, qppIndiaRates,
    getWorkingHoursPerLocation, jsNumOfOpt, JsNum.mul, JsNum.add, JsNum.round2,
    jsOrStr, jsTruthyStr, dbSizeMultiplier, qppCalculateRunCost,
    calculateTotalFromBreakdown, bind, Except.bind]
  norm_num [round2]

/-! ## Claim C6: per-calculator complexity policy -/

/-- Counterexample to C6 as stated: Q++ does *not* fall back to `Medium`
for a complexity value outside the five recognized levels — with
complexity `"Invalid"` the build cost consists of an `isError` entry
(amount 0) from the failed effort-hours lookup, which differs from the
`Medium` result the claim requires. -/
theorem c6_counterexample :
    qppCalculateBuildCost
        { assetName := "QPlusPlus"
          complexity := some "Invalid"
          commonFields := { deploymentType := "cloud" }
          assetComponents :=
            [{ name := "Frontend"
               resourceModel := [{ location := "India", allocation := 100 }] }] } =
      .ok { total := .num 0
            breakdown :=
              [{ costComponentName := "Frontend"
                 amount := .num 0
                 isError := true
                 errorMessage := some (CalcError.effortHoursNotFoundComplexity "Frontend" "Invalid")
                 effortHours := none
                 effortBreakdown := none }] } ∧
    qppCalculateBuildCost
        { assetName := "QPlusPlus"
          complexity := some "Medium"
          commonFields := { deploymentType := "cloud" }
          assetComponents :=
            [{ name := "Frontend"
               resourceModel := [{ location := "India", allocation := 100 }] }] } =
      .ok { total := .num 6075
            breakdown :=
              [{ costComponentName := "Frontend"
                 amount := .num 6075
                 isError := false
                 errorMessage := none
                 effortHours := some (.num 405)
                 effortBreakdown :=
                   some [{ deliveryLocation := "India"
                           effortHours := .num 405
                           effortAmount := .num 6075 }] }] } ∧
    qppCalculateBuildCost
        { assetName := "QPlusPlus"
          complexity := some "Invalid"
          commonFields := { deploymentType := "cloud" }
          assetComponents :=
            [{ name := "Frontend"
               resourceModel := [{ location := "India", allocation := 100 }] }] } ≠
      qppCalculateBuildCost
        { assetName := "QPlusPlus"
          complexity := some "Medium"
          commonFields := { deploymentType := "cloud" }
          assetComponents :=
            [{ name := "Frontend"
               resourceModel := [{ location := "India", allocation := 100 }] }] } := by
  have h1 : qppCalculateBuildCost
      { assetName := "QPlusPlus"
        complexity := some "Invalid"
        commonFields := { deploymentType := "cloud" }
        assetComponents :=
          [{ name := "Frontend"
             resourceModel := [{ location := "India", allocation := 100 }] }] } =
      .ok { total := .num 0
            breakdown :=
              [{ costComponentName := "Frontend"
                 amount := .num 0
                 isError := true
                 errorMessage := some (CalcError.effortHoursNotFoundComplexity "Frontend" "Invalid")
                 effortHours := none
                 effortBreakdown := none }] } := by
    simp [qppCalculateBuildCost, qppCalculateEffortBasedCosts, qppGetEffortHours,
      qppEffortHoursDb, qppFrontendHours, jsOrStr, jsTruthyStr,
      calculateTotalFromBreakdown, JsNum.add, bind, Except.bind]
  have h2 : qppCalculateBuildCost
      { assetName := "QPlusPlus"
        complexity := some "Medium"
        commonFields := { deploymentType := "cloud" }
        assetComponents :=
          [{ name := "Frontend"
             resourceModel := [{ location := "India", allocation := 100 }] }] } =
      .ok { total := .num 6075
            breakdown :=
              [{ costComponentName := "Frontend"
                 amount := .num 6075
                 isError := false
                 errorMessage := none
                 effortHours := some (.num 405)
                 effortBreakdown :=
                   some [{ deliveryLocation := "India"
                           effortHours := .num 405
                           effortAmount := .num 6075 }] }] } := by
    simp [qppCalculateBuildCost, qppCalculateEffortBasedCosts, qppGetEffortHours,
      qppEffortHoursDb, qppFrontendHours, calculateEffortBasedComponentCost,
      effortLoop, rateLookup, qppBlendRates, qppAustraliaRates, qppIndiaRates,
      getWorkingHoursPerLocation, jsNumOfOpt, JsNum.mul, JsNum.add, JsNum.round2,
      jsOrStr, jsTruthyStr, calculateTotalFromBreakdown, bind, Except.bind]
    norm_num [round2]
  refine ⟨h1, h2, ?_⟩
  rw [h1, h2]
  simp

theorem qppRows_invalid (s : String) (hs : s ∉ validComplexities) :
    qppFrontendHours s = none ∧ qppBackendHours s = none ∧ qppDatabaseHours s = none := by
  simp only [validComplexities, List.mem_cons, List.mem_singleton, not_or] at hs
  obtain ⟨h1, h2, h3, h4, h5⟩ := hs
  refine ⟨?_, ?_, ?_⟩ <;>
    simp [qppFrontendHours, qppBackendHours, qppDatabaseHours, h1, h2, h3, h4, h5]

theorem qppGetEffortHours_invalid (name s : String) (hs : s ∉ validComplexities) :
    ∃ e, qppGetEffortHours name s = .error e := by
  obtain ⟨hf, hb, hd⟩ := qppRows_invalid s hs
  unfold qppGetEffortHours qppEffortHoursDb
  by_cases h1 : name = "Frontend"
  · exact ⟨CalcError.effortHoursNotFoundComplexity name s, by simp [h1, hf]⟩
  by_cases h2 : name = "Backend"
  · exact ⟨CalcError.effortHoursNotFoundComplexity name s, by simp [h1, h2, hb]⟩
  by_cases h3 : name = "Database"
  · exact ⟨CalcError.effortHoursNotFoundComplexity name s, by simp [h1, h2, h3, hd]⟩
  · exact ⟨CalcError.effortHoursNotFoundComponent name, by simp [h1, h2, h3]⟩

/-- **C6 (amended).** The ATR calculator fails hard on complexity: an
absent complexity (or the falsy empty string) aborts the build cost with
the "mandatory" error and a value outside the five recognized levels
aborts it with the "invalid complexity" error.  The Q++ calculator falls
back to `Medium` only when complexity is *missing* (absent or empty
string); a complexity value outside the five recognized levels is *not*
replaced by `Medium`: it is passed to the lookups, so every
effort-based breakdown entry comes back as an `isError` entry with
amount 0. -/
theorem c6_complexity_policy_amended :
    (∀ request : AssetCostRequest, request.complexity = none →
      atrCalculateBuildCost request = .error CalcError.complexityMandatory) ∧
    (∀ (request : AssetCostRequest) (s : String), request.complexity = some s →
      s ∉ validComplexities →
      atrCalculateBuildCost request =
        .error (if s = "" then CalcError.complexityMandatory
                else CalcError.invalidComplexity s)) ∧
    (∀ request : AssetCostRequest,
      request.complexity = none ∨ request.complexity = some "" →
      qppCalculateBuildCost request =
        qppCalculateBuildCost { request with complexity := some "Medium" }) ∧
    (∀ (components : List AssetComponent) (s : String), s ∉ validComplexities →
      ∀ bd ∈ qppCalculateEffortBasedCosts components s,
        bd.isError = true ∧ bd.amount = .num 0) := by
  refine ⟨?_, ?_, ?_, ?_⟩
  · intro request h
    simp [atrCalculateBuildCost, h]
  · intro request s h hs
    simp only [atrCalculateBuildCost, h]
    by_cases hse : s = ""
    · simp [hse]
    · simp [hse, hs]
  · intro request h
    rcases h with h | h <;> simp [qppCalculateBuildCost, jsOrStr, h]
  · intro components s hs bd hbd
    rcases List.mem_map.mp hbd with ⟨component, hcmem, rfl⟩
    obtain ⟨e, he⟩ := qppGetEffortHours_invalid component.name s hs
    simp [he, bind, Except.bind]

/-- Witness for C6 (amended) at concrete inputs: ATR with absent and
with `"Banana"` complexity, Q++ with absent versus `Medium` complexity,
and the error entry Q++ produces for `"Banana"`. -/
theorem c6_complexity_policy_amended_witness :
    atrCalculateBuildCost
        { assetName := "ATR"
          commonFields := { deploymentType := "cloud" }
          assetComponents :=
            [{ name := "ignition"
               resourceModel := [{ location := "India", allocation := 100 }] }] } =
      .error CalcError.complexityMandatory ∧
    atrCalculateBuildCost
        { assetName := "ATR"
          complexity := some "Banana"
          commonFields := { deploymentType := "cloud" }
          assetComponents :=
            [{ name := "ignition"
               resourceModel := [{ location := "India", allocation := 100 }] }] } =
      .error (CalcError.invalidComplexity "Banana") ∧
    qppCalculateBuildCost
        { assetName := "QPlusPlus"
          commonFields := { deploymentType := "cloud" }
          assetComponents :=
            [{ name := "Frontend"
               resourceModel := [{ location := "India", allocation := 100 }] }] } =
      qppCalculateBuildCost
        { assetName := "QPlusPlus"
          complexity := some "Medium"
          commonFields := { deploymentType := "cloud" }
          assetComponents :=
            [{ name := "Frontend"
               resourceModel := [{ location := "India", allocation := 100 }] }] } ∧
    ({ costComponentName := "Frontend"
       amount := .num 0
       isError := true
       errorMessage := some (CalcError.effortHoursNotFoundComplexity "Frontend" "Banana")
       effortHours := none
       effortBreakdown := none } : CostBreakdown).isError = true := by
  refine ⟨?_, ?_, ?_, ?_⟩
  · exact c6_complexity_policy_amended.1 _ rfl
  · exact (c6_complexity_policy_amended.2.1 _ "Banana" rfl (by simp [validComplexities])).trans
      (by simp)
  · exact c6_complexity_policy_amended.2.2.1 _ (Or.inl rfl)
  · refine (c6_complexity_policy_amended.2.2.2
      [{ name := "Frontend"
         resourceModel := [{ location := "India", allocation := 100 }] }]
      "Banana" (by simp [validComplexities])
      { costComponentName := "Frontend"
        amount := .num 0
        isError := true
        errorMessage := some (CalcError.effortHoursNotFoundComplexity "Frontend" "Banana")
        effortHours := none
        effortBreakdown := none } ?_).1
    simp [qppCalculateEffortBasedCosts, qppGetEffortHours, qppEffortHoursDb,
      qppFrontendHours, bind, Except.bind]

/-! ## Claim C7: deployment-type multiplier -/

/-- Counterexample to C7 as stated: on two otherwise identical Q++
requests differing only in `deploymentType` `"managed"` versus
`"cloud"`, the deployment-adjusted run-cost line item is 1000 in *both*
(the shipped calculator hard-codes the multiplier to 1.0), and
`1000 ≠ 1.5 · 1000` — the managed line items are not 1.5× the cloud
equivalents. -/
theorem c7_counterexample :
    qppCalculateRunCost
        { assetName := "QPlusPlus"
          commonFields := { deploymentType := "managed" }
          assetComponents :=
            [{ name := "Frontend"
               resourceModel := [{ location := "India", allocation := 100 }] }] } =
      qppCalculateRunCost
        { assetName := "QPlusPlus"
          commonFields := { deploymentType := "cloud" }
          assetComponents :=
            [{ name := "Frontend"
               resourceModel := [{ location := "India", allocation := 100 }] }] } ∧
    qppCalculateRunCost
        { assetName := "QPlusPlus"
          commonFields := { deploymentType := "managed" }
          assetComponents :=
            [{ name := "Frontend"
               resourceModel := [{ location := "India", allocation := 100 }] }] } =
      .ok { total := .num 1000
            breakdown :=
              [{ costComponentName := "Monthly Service"
                 amount := .num 1000
                 isError := false
                 errorMessage := none
                 effortHours := none
                 effortBreakdown := none }]
            period := "monthly" } ∧
    (1000 : ℚ) ≠ 1.5 * 1000 := by
  refine ⟨rfl, ?_, by norm_num⟩
  simp [qppCalculateRunCost, jsTruthyStr, calculateTotalFromBreakdown, JsNum.add]
  norm_num

/-- **C7 (amended).** The deployment-type multiplier table — defined in
the repository only by the test calculator's
`getDeploymentTypeMultiplier` — is onPremise 1.2, cloud 1.0, hybrid 1.3,
managed 1.5, with 1.0 for unrecognized values; but neither shipped
calculator applies it: the Q++ run cost hard-codes a 1.0 multiplier, so
two requests differing only in deployment type (e.g. managed versus
cloud) produce identical run-cost line items. -/
theorem c7_deployment_multiplier_amended :
    (∀ request : AssetCostRequest,
      (request.commonFields.deploymentType = "onPremise" →
        getDeploymentTypeMultiplier request = 1.2) ∧
      (request.commonFields.deploymentType = "cloud" →
        getDeploymentTypeMultiplier request = 1.0) ∧
      (request.commonFields.deploymentType = "hybrid" →
        getDeploymentTypeMultiplier request = 1.3) ∧
      (request.commonFields.deploymentType = "managed" →
        getDeploymentTypeMultiplier request = 1.5) ∧
      (request.commonFields.deploymentType ∉
          (["onPremise", "cloud", "hybrid", "managed"] : List String) →
        getDeploymentTypeMultiplier request = 1.0)) ∧
    (∀ (request : AssetCostRequest) (dt₁ dt₂ : String),
      qppCalculateRunCost
          { request with commonFields := { request.commonFields with deploymentType := dt₁ } } =
        qppCalculateRunCost
          { request with commonFields := { request.commonFields with deploymentType := dt₂ } }) := by
  constructor
  · intro request
    refine ⟨?_, ?_, ?_, ?_, ?_⟩ <;> intro h
    · simp [getDeploymentTypeMultiplier, h]
    · simp [getDeploymentTypeMultiplier, h]
    · simp [getDeploymentTypeMultiplier, h]
    · simp [getDeploymentTypeMultiplier, h]
    · simp only [List.mem_cons, List.mem_singleton, not_or] at h
      obtain ⟨h1, h2, h3, h4⟩ := h
      simp [getDeploymentTypeMultiplier, h1, h2, h3, h4]
  · intro request dt₁ dt₂
    rfl

/-- Witness for C7 (amended) at concrete requests: the multiplier values
for each deployment type (including an unrecognized one) and the
equality of Q++ run costs under managed and cloud deployment. -/
theorem c7_deployment_multiplier_amended_witness :
    getDeploymentTypeMultiplier
        { assetName := "T", commonFields := { deploymentType := "onPremise" },
          assetComponents := [] } = 1.2 ∧
    getDeploymentTypeMultiplier
        { assetName := "T", commonFields := { deploymentType := "managed" },
          assetComponents := [] } = 1.5 ∧
    getDeploymentTypeMultiplier
        { assetName := "T", commonFields := { deploymentType := "weird" },
          assetComponents := [] } = 1.0 ∧
    qppCalculateRunCost
        { assetName := "QPlusPlus",
          commonFields := { deploymentType := "managed" }, assetComponents := [] } =
      qppCalculateRunCost
        { assetName := "QPlusPlus",
          commonFields := { deploymentType := "cloud" }, assetComponents := [] } := by
  refine ⟨?_, ?_, ?_, ?_⟩
  · exact (c7_deployment_multiplier_amended.1 _).1 rfl
  · exact (c7_deployment_multiplier_amended.1 _).2.2.2.1 rfl
  · exact (c7_deployment_multiplier_amended.1 _).2.2.2.2 (by simp)
  · exact c7_deployment_multiplier_amended.2
      { assetName := "QPlusPlus",
        commonFields := { deploymentType := "x" }, assetComponents := [] }
      "managed" "cloud"

/-! ## Claim C8: support-level scaling -/

/-- Counterexample to C8 as stated: in the ATR run cost with one
license, the support line item is 100 under `basic`, 500 under `premium`
(5×, not 1.5×, the basic amount), and 250 — the `standard` amount, not
the basic one — when `supportLevel` is absent. -/
theorem c8_counterexample :
    atrCalculateRunCost
        { assetName := "ATR"
          commonFields := { deploymentType := "onPremise", supportLevel := some "basic" }
          assetComponents := []
          specificFields := { licenseCount := some 1 } } =
      .ok { total := .num 600
            breakdown :=
              [{ costComponentName := "License Fees", amount := .num 500, isError := false },
               { costComponentName := "Support", amount := .num 100, isError := false }]
            period := "monthly" } ∧
    atrCalculateRunCost
        { assetName := "ATR"
          commonFields := { deploymentType := "onPremise", supportLevel := some "premium" }
          assetComponents := []
          specificFields := { licenseCount := some 1 } } =
      .ok { total := .num 1000
            breakdown :=
              [{ costComponentName := "License Fees", amount := .num 500, isError := false },
               { costComponentName := "Support", amount := .num 500, isError := false }]
            period := "monthly" } ∧
    atrCalculateRunCost
        { assetName := "ATR"
          commonFields := { deploymentType := "onPremise" }
          assetComponents := []
          specificFields := { licenseCount := some 1 } } =
      .ok { total := .num 750
            breakdown :=
              [{ costComponentName := "License Fees", amount := .num 500, isError := false },
               { costComponentName := "Support", amount := .num 250, isError := false }]
            period := "monthly" } ∧
    (500 : ℚ) ≠ 1.5 * 100 ∧ (250 : ℚ) ≠ 100 := by
  refine ⟨?_, ?_, ?_, by norm_num, by norm_num⟩ <;>
    · simp [atrCalculateRunCost, jsOrStr, calculateTotalFromBreakdown, JsNum.add]
      norm_num

/-- **C8 (amended).** The ATR run cost applies no 1.0/1.2/1.5 support
multiplier: its support line item is a flat per-license amount — 100 for
`basic`, 250 for `standard`, 500 for `premium`, and 250 (the `standard`
amount) for an absent or unrecognized level — so `premium` is 5× and
`standard` 2.5× the `basic` amount, and an absent `supportLevel` matches
`standard`, not `basic`.  The 1.0/1.2/1.5 multiplier exists only in the
test calculator's `getSupportLevelMultiplier`, which yields 1.0 for
`basic`, 1.2 for `standard`, 1.5 for `premium`, 1.0 for an unrecognized
non-empty level, but 1.2 (the `standard` default), not 1.0, for an
absent level. -/
theorem c8_support_level_amended :
    (∀ (request : AssetCostRequest) (lc : ℚ),
      request.specificFields.licenseCount = some lc → ¬(lc = 0 ∨ lc < 1) →
      ∃ res rest, atrCalculateRunCost request = .ok res ∧
        res.breakdown =
          { costComponentName := "License Fees", amount := .num (500 * lc), isError := false } ::
          { costComponentName := "Support"
            amount := .num
              ((if jsOrStr request.commonFields.supportLevel "standard" = "basic" then 100
                else if jsOrStr request.commonFields.supportLevel "standard" = "standard" then 250
                else if jsOrStr request.commonFields.supportLevel "standard" = "premium" then 500
                else 250) * lc)
            isError := false } :: rest) ∧
    (∀ request : AssetCostRequest,
      (request.commonFields.supportLevel = some "basic" →
        getSupportLevelMultiplier request = 1.0) ∧
      (request.commonFields.supportLevel = some "standard" →
        getSupportLevelMultiplier request = 1.2) ∧
      (request.commonFields.supportLevel = some "premium" →
        getSupportLevelMultiplier request = 1.5) ∧
      (request.commonFields.supportLevel = none →
        getSupportLevelMultiplier request = 1.2) ∧
      (∀ s, request.commonFields.supportLevel = some s →
        s ∉ (["basic", "standard", "premium", ""] : List String) →
        getSupportLevelMultiplier request = 1.0)) := by
  constructor
  · intro request lc h1 h2
    unfold atrCalculateRunCost
    simp only [h1]
    rw [if_neg h2]
    refine ⟨_, (if request.commonFields.deploymentType = "cloud" then
      [{ costComponentName := "Cloud Infrastructure", amount := .num (200 * lc),
         isError := false }] else []), rfl, ?_⟩
    simp [ite_mul]
  · intro request
    refine ⟨?_, ?_, ?_, ?_, ?_⟩
    · intro h; simp [getSupportLevelMultiplier, jsOrStr, h]
    · intro h; simp [getSupportLevelMultiplier, jsOrStr, h]
    · intro h; simp [getSupportLevelMultiplier, jsOrStr, h]
    · intro h; simp [getSupportLevelMultiplier, jsOrStr, h]
    · intro s h hs
      simp only [List.mem_cons, List.mem_singleton, not_or] at hs
      obtain ⟨hs1, hs2, hs3, hs4⟩ := hs
      simp [getSupportLevelMultiplier, jsOrStr, h, hs1, hs2, hs3, hs4]

/-- Witness for C8 (amended) at concrete inputs: the ATR premium support
line for two licenses is `500 · 2`, and the test helper's multiplier is
1.0 for `basic` but 1.2 for an absent support level. -/
theorem c8_support_level_amended_witness :
    (∃ res rest, atrCalculateRunCost
        { assetName := "ATR"
          commonFields := { deploymentType := "onPremise", supportLevel := some "premium" }
          assetComponents := []
          specificFields := { licenseCount := some 2 } } = .ok res ∧
      res.breakdown =
        { costComponentName := "License Fees", amount := .num 1000, isError := false } ::
        { costComponentName := "Support", amount := .num 1000, isError := false } :: rest) ∧
    getSupportLevelMultiplier
        { assetName := "T", commonFields := { deploymentType := "cloud", supportLevel := some "basic" },
          assetComponents := [] } = 1.0 ∧
    getSupportLevelMultiplier
        { assetName := "T", commonFields := { deploymentType := "cloud" },
          assetComponents := [] } = 1.2 := by
  refine ⟨?_, ?_, ?_⟩
  · obtain ⟨res, rest, h1, h2⟩ := c8_support_level_amended.1
      { assetName := "ATR"
        commonFields := { deploymentType := "onPremise", supportLevel := some "premium" }
        assetComponents := []
        specificFields := { licenseCount := some 2 } } 2 rfl (by norm_num)
    refine ⟨res, rest, h1, h2.trans ?_⟩
    simp [jsOrStr]
    norm_num
  · exact (c8_support_level_amended.2 _).1 rfl
  · exact (c8_support_level_amended.2 _).2.2.2.1 rfl

end CoreTaskEngine
